import Mathlib

/-!
Verification of the Authentication and Token Lifecycle Subsystem of the
little_diary auth service (`auth_api/auth/views.py`, `auth_api/api/resources/user.py`).

The Python source is shallowly embedded: handlers become pure Lean functions,
the persistent token ledger and the user store become explicit values threaded
through each operation, timestamps are naturals, and every HTTP response is a
pair of a JSON-like body and a status code.  Components of the repository that
are not among the provided sources (`auth_api/auth/helpers.py`,
`auth_api/services/user_service.py`, `auth_api/stories/google_login.py`, and
the flask_jwt_extended library internals) are modelled from the specification
and marked as such in their doc comments.
-/

namespace LittleDiary

/-- Roles are strings in the source (marshmallow `ma.String` validated against
the `roles` list of `roles_enum.py`); the enumeration module itself is not
among the sources, so the role type is kept open as `String` with the two
named constants the sources mention. -/
abbrev Role := String

/-- Constant `Roles.Tech` of `auth_api/models/roles_enum.py` (the Elevated tier). -/
def RolesTech : Role := "tech"

/-- Constant `Roles.User` of `auth_api/models/roles_enum.py` (the Standard tier). -/
def RolesUser : Role := "user"

/-- The TTL configuration consulted by `get_access_token_expire_delta` and
`get_refresh_expire_delta` via `app.config`. -/
structure Config where
  techAccessExpire : Nat
  userAccessExpire : Nat
  techRefreshExpire : Nat
  userRefreshExpire : Nat
  deriving Repr, DecidableEq

/-- A row of the `User` model as used by the embedded handlers: internal id,
login credentials, external uuid, role and resource grants. -/
structure User where
  id : Nat
  username : String
  password : String
  email : String
  external_uuid : String
  role : Role
  resources : List String
  deriving Repr, DecidableEq

/-- The user claims dictionary built by `get_user_claims` (views.py line 277). -/
structure UserClaims where
  role : Role
  uuid : String
  resources : List String
  deriving Repr, DecidableEq

/-- Source `get_user_claims(user)` (views.py lines 277-278). -/
def get_user_claims (user : User) : UserClaims :=
  { role := user.role, uuid := user.external_uuid, resources := user.resources }

/-- Source `get_access_token_expire_delta(user)` (views.py lines 96-101). -/
def get_access_token_expire_delta (cfg : Config) (user : User) : Nat :=
  if user.role == RolesTech then cfg.techAccessExpire else cfg.userAccessExpire

/-- Source `get_refresh_expire_delta(user)` (views.py lines 88-93). -/
def get_refresh_expire_delta (cfg : Config) (user : User) : Nat :=
  if user.role == RolesTech then cfg.techRefreshExpire else cfg.userRefreshExpire

/-- Token kind marker (the `type` field flask_jwt_extended writes into every
token payload and checks in `jwt_required` / `jwt_refresh_token_required`). -/
inductive TokenKind
  | access
  | refresh
  deriving Repr, DecidableEq

/-- The decoded payload of an issued JWT: identity (`sub`), optional user
claims dictionary, unique `jti`, issued-at, expiry and the kind marker.
The signature is not modelled: tokens are handled in decoded form, and a
structurally distinct payload stands for a distinct raw token. -/
structure TokenPayload where
  identity : Nat
  user_claims : Option UserClaims
  jti : Nat
  iat : Nat
  exp : Nat
  kind : TokenKind
  deriving Repr, DecidableEq

/-- Modelled from the spec: flask_jwt_extended `create_access_token` as called
at views.py lines 76-77 — the payload carries sub, the user claims passed by
the caller, a fresh jti, iat = now and exp = now + expires_delta (spec 4.3 and
the issued token wire shape of spec 6). -/
def create_access_token (identity : Nat) (user_claims : UserClaims)
    (expires_delta : Nat) (now jti : Nat) : TokenPayload :=
  { identity := identity, user_claims := some user_claims, jti := jti,
    iat := now, exp := now + expires_delta, kind := TokenKind.access }

/-- Modelled from the spec: flask_jwt_extended `create_refresh_token` as called
at views.py lines 79-80 — the call passes no user claims and the library
default keeps user claims out of refresh tokens, so the payload carries only
sub, a fresh jti, iat, exp and the refresh kind marker. -/
def create_refresh_token (identity : Nat) (expires_delta : Nat)
    (now jti : Nat) : TokenPayload :=
  { identity := identity, user_claims := none, jti := jti,
    iat := now, exp := now + expires_delta, kind := TokenKind.refresh }

/-- A TokenRecord of the revocation ledger: jti, kind, owning principal,
expiry and the monotonic revoked flag (spec 3, TokenRecord). -/
structure TokenRecord where
  jti : Nat
  kind : TokenKind
  user_id : Nat
  expires : Nat
  revoked : Bool
  deriving Repr, DecidableEq

/-- The durable backing store of the RevocationLedger. -/
structure LedgerState where
  records : List TokenRecord
  deriving Repr, DecidableEq

/-- Modelled from the spec: `add_token_to_database` of the missing
`auth_api/auth/helpers.py` — durably writes a
TokenRecord(jti, kind, principal, expiry, revoked=false) for the decoded
token (spec 4.3). -/
def add_token_to_database (tok : TokenPayload) (st : LedgerState) : LedgerState :=
  { records := st.records ++
      [{ jti := tok.jti, kind := tok.kind, user_id := tok.identity,
         expires := tok.exp, revoked := false }] }

/-- Modelled from the spec: `revoke_token(jti, user_identity)` of the missing
`auth_api/auth/helpers.py` — RevocationLedger.recordRevoked(jti): marks the
record with that jti revoked; revoking an already-revoked or unknown jti is a
no-op success, never an error (spec 4.4). -/
def revoke_token (jti : Nat) ( user_identity : Nat) (st : LedgerState) : LedgerState :=
  { records := st.records.map fun r =>
      if r.jti == jti then { r with revoked := true } else r }

/-- Modelled from the spec: `is_token_revoked(decoded_token)` of the missing
`auth_api/auth/helpers.py` — RevocationLedger.isRevoked(jti): point lookup by
jti; an unknown jti is treated as revoked (fail closed, spec 4.4). -/
def is_token_revoked (decoded_token : TokenPayload) (st : LedgerState) : Bool :=
  match st.records.find? (fun r => r.jti == decoded_token.jti) with
  | none => true
  | some r => r.revoked

/-- Source `check_if_token_revoked` (views.py lines 262-264): the blacklist
loader simply delegates to `is_token_revoked`. -/
def check_if_token_revoked (decoded_token : TokenPayload) (st : LedgerState) : Bool :=
  is_token_revoked decoded_token st

/-- The declared validation failure taxonomy (spec 4.5 and 7). -/
inductive ValidateError
  | expired
  | revoked
  | malformed
  | signatureInvalid
  deriving Repr, DecidableEq

/-- Modelled from the spec: the TokenValidator run by flask_jwt_extended on
every protected request (spec 4.5) — on an already-decoded payload: if
exp <= now fail Expired, else consult the blacklist loader
`check_if_token_revoked` and fail Revoked when it answers true, else return
identity and claims.  Parse and signature failures concern raw byte strings,
which the decoded-payload embedding does not represent. -/
def validate (tok : TokenPayload) (now : Nat) (st : LedgerState) :
    Except ValidateError (Nat × Option UserClaims) :=
  if tok.exp ≤ now then Except.error ValidateError.expired
  else if check_if_token_revoked tok st then Except.error ValidateError.revoked
  else Except.ok (tok.identity, tok.user_claims)

/-- JSON response bodies produced by the embedded handlers. -/
inductive JsonBody
  | msg (s : String)
  | err (s : String)
  | message (s : String)
  | tokens (access refresh_tok : TokenPayload)
  | accessOnly (access : TokenPayload)
  | publicList (users : List (String × String))
  deriving Repr, DecidableEq

/-- A handler response: body and HTTP status. -/
abbrev Response := JsonBody × Nat

/-- The JSON payload of a login request: whether the request carried JSON at
all, and the two optional fields. -/
structure LoginRequest where
  is_json : Bool
  username : Option String
  password : Option String
  deriving Repr, DecidableEq

/-- Python truthiness of an optional string: `not username` is true when the
field is absent or the empty string. -/
def falsyStr : Option String → Bool
  | none => true
  | some s => s == ""

/-- Modelled from the spec: `login_internal_user(username, password)` of the
missing `auth_api/services/user_service.py` — looks the user up by username
and verifies the password; on a missing user or a password mismatch it
returns nothing, with no distinction between the two cases (spec 4.6). -/
def login_internal_user (store : List User) (username password : String) :
    Option User :=
  match store.find? (fun u => u.username == username) with
  | none => none
  | some u => if u.password == password then some u else none

/-- Source `login` (views.py lines 63-85): reject non-JSON and missing
fields, authenticate via `login_internal_user`, on success create an access
token carrying the user claims and a refresh token, write both to the ledger
database, and only then return both tokens with status 200.  The fresh jti
values are drawn from the counter `j` (the access token gets `j`, the refresh
token `j + 1`). -/
def login (cfg : Config) (store : List User) (req : LoginRequest)
    (now j : Nat) (st : LedgerState) : Response × LedgerState :=
  if !req.is_json then ((JsonBody.msg "Missing JSON in request", 400), st)
  else if falsyStr req.username || falsyStr req.password then
    ((JsonBody.msg "Missing username or password", 400), st)
  else
    match login_internal_user store (req.username.getD "") (req.password.getD "") with
    | none => ((JsonBody.msg "Bad credentials", 400), st)
    | some user =>
      let access_expire := get_access_token_expire_delta cfg user
      let access_token := create_access_token user.id (get_user_claims user)
        access_expire now j
      let refresh_expire := get_refresh_expire_delta cfg user
      let refresh_token := create_refresh_token user.id refresh_expire now (j + 1)
      let st1 := add_token_to_database access_token st
      let st2 := add_token_to_database refresh_token st1
      ((JsonBody.tokens access_token refresh_token, 200), st2)

/-- Source `refresh` (views.py lines 133-140), together with its
`jwt_refresh_token_required` guard and the registered `user_loader_callback`
(both modelled from the spec, 4.5 and 4.7): the presented token must carry
the refresh kind marker and pass validation, the current user row is looked
up by the token identity, and a single new access token is created from the
user claims re-derived from that current row, written to the database and
returned. -/
def refresh (cfg : Config) (store : List User) (tok : TokenPayload)
    (now j : Nat) (st : LedgerState) : Response × LedgerState :=
  if tok.kind != TokenKind.refresh then
    ((JsonBody.msg "Only refresh tokens are allowed", 401), st)
  else
    match validate tok now st with
    | Except.error ValidateError.expired => ((JsonBody.msg "Token has expired", 401), st)
    | Except.error ValidateError.revoked => ((JsonBody.msg "Token has been revoked", 401), st)
    | Except.error _ => ((JsonBody.msg "Invalid token", 401), st)
    | Except.ok _ =>
      match store.find? (fun u => u.id == tok.identity) with
      | none => ((JsonBody.msg "Error loading the user", 401), st)
      | some user =>
        let access_expire := get_access_token_expire_delta cfg user
        let access_token := create_access_token tok.identity (get_user_claims user)
          access_expire now j
        ((JsonBody.accessOnly access_token, 200),
          add_token_to_database access_token st)

/-- Source `revoke_access_token` (views.py lines 167-170), with its
`jwt_required` guard modelled from spec 4.8: the presented token must itself
be currently valid and carry the access kind marker; then
`revoke_token(jti, user_identity)` is called with the jti and identity taken
from the presented token itself. -/
def revoke_access_token (tok : TokenPayload) (now : Nat) (st : LedgerState) :
    Response × LedgerState :=
  if tok.kind != TokenKind.access then
    ((JsonBody.msg "Only access tokens are allowed", 401), st)
  else
    match validate tok now st with
    | Except.error ValidateError.expired => ((JsonBody.msg "Token has expired", 401), st)
    | Except.error ValidateError.revoked => ((JsonBody.msg "Token has been revoked", 401), st)
    | Except.error _ => ((JsonBody.msg "Invalid token", 401), st)
    | Except.ok _ =>
      ((JsonBody.message "token revoked", 200),
        revoke_token tok.jti tok.identity st)

/-- Source `revoke_refresh_token` (views.py lines 197-200), with its
`jwt_refresh_token_required` guard modelled from spec 4.8: identical to the
access variant but requiring the refresh kind marker, and again revoking only
the jti of the presented token itself. -/
def revoke_refresh_token (tok : TokenPayload) (now : Nat) (st : LedgerState) :
    Response × LedgerState :=
  if tok.kind != TokenKind.refresh then
    ((JsonBody.msg "Only refresh tokens are allowed", 401), st)
  else
    match validate tok now st with
    | Except.error ValidateError.expired => ((JsonBody.msg "Token has expired", 401), st)
    | Except.error ValidateError.revoked => ((JsonBody.msg "Token has been revoked", 401), st)
    | Except.error _ => ((JsonBody.msg "Invalid token", 401), st)
    | Except.ok _ =>
      ((JsonBody.message "token revoked", 200),
        revoke_token tok.jti tok.identity st)

/-- The declared failure kinds of the FederatedLoginFlow (spec 3,
ExchangeResult, and `GoogleLoginStory.Errors`). -/
inductive FederatedFailure
  | missingAuthorizationCode
  | providerExchangeFailed
  | providerProfileInvalid
  deriving Repr, DecidableEq

/-- The profile the external provider returns for a resolved grant: the
identifying subject (email) used to match or create a local principal. -/
structure GoogleProfile where
  subject : String
  username : String
  deriving Repr, DecidableEq

/-- The external OAuth provider collaborator, as one exchange capability
(spec 6): the token endpoint maps a code to an access grant or a provider
error, and the profile endpoint maps a grant to a profile or an invalidity
report. -/
structure ProviderEnv where
  exchangeCode : String → Except String String
  fetchProfile : String → Except String GoogleProfile

/-- The tagged ExchangeResult of the FederatedLoginFlow (spec 3): success
with both tokens, or a failure kind with detail.  No exception crosses this
boundary. -/
inductive ExchangeResult
  | success (access refresh_tok : TokenPayload)
  | failure (kind : FederatedFailure) (detail : String)
  deriving Repr, DecidableEq

/-- Modelled from the spec: `GoogleLoginStory.login.run(user_data)` of the
missing `auth_api/stories/google_login.py` — the state machine of spec 4.9:
validate input (no code: MissingAuthorizationCode), exchange the code
(provider rejection: ProviderExchangeFailed), resolve the principal from the
profile (invalid profile: ProviderProfileInvalid; unknown subject: create a
Standard-role principal with no grants, fresh ids `freshId` and `freshUuid`;
known subject: reuse unchanged), then issue both tokens exactly as the local
login tail does.  Returns the tagged result plus the updated user store and
ledger. -/
def googleLoginStory (cfg : Config) (env : ProviderEnv) (store : List User)
    (code : Option String) (now j freshId : Nat) (freshUuid : String)
    (st : LedgerState) : ExchangeResult × List User × LedgerState :=
  match code with
  | none => (ExchangeResult.failure FederatedFailure.missingAuthorizationCode
      "Missing authorization code", store, st)
  | some c =>
    match env.exchangeCode c with
    | Except.error detail =>
      (ExchangeResult.failure FederatedFailure.providerExchangeFailed detail, store, st)
    | Except.ok grant =>
      match env.fetchProfile grant with
      | Except.error detail =>
        (ExchangeResult.failure FederatedFailure.providerProfileInvalid detail, store, st)
      | Except.ok profile =>
        let resolved := store.find? (fun u => u.email == profile.subject)
        let user := match resolved with
          | some u => u
          | none =>
            { id := freshId, username := profile.username, password := "",
              email := profile.subject, external_uuid := freshUuid,
              role := RolesUser, resources := [] }
        let store1 := match resolved with
          | some _ => store
          | none => store ++ [user]
        let access_expire := get_access_token_expire_delta cfg user
        let access_token := create_access_token user.id (get_user_claims user)
          access_expire now j
        let refresh_expire := get_refresh_expire_delta cfg user
        let refresh_token := create_refresh_token user.id refresh_expire now (j + 1)
        let st1 := add_token_to_database access_token st
        let st2 := add_token_to_database refresh_token st1
        (ExchangeResult.success access_token refresh_token, store1, st2)

/-- The JSON payload of a google login request. -/
structure GoogleRequest where
  is_json : Bool
  code : Option String
  deriving Repr, DecidableEq

/-- Source `login_google` (views.py lines 243-254): reject non-JSON, run the
story, map a MissingAuthorizationCode failure to status 400, every other
failure to status 500 with its reason, and success to status 200 with both
tokens. -/
def login_google (cfg : Config) (env : ProviderEnv) (store : List User)
    (req : GoogleRequest) (now j freshId : Nat) (freshUuid : String)
    (st : LedgerState) : Response × List User × LedgerState :=
  if !req.is_json then ((JsonBody.msg "Missing JSON in request", 400), store, st)
  else
    match googleLoginStory cfg env store req.code now j freshId freshUuid st with
    | (ExchangeResult.failure FederatedFailure.missingAuthorizationCode _, store1, st1) =>
      ((JsonBody.err "Missing authorization code", 400), store1, st1)
    | (ExchangeResult.failure _ detail, store1, st1) =>
      ((JsonBody.err detail, 500), store1, st1)
    | (ExchangeResult.success a r, store1, st1) =>
      ((JsonBody.tokens a r, 200), store1, st1)

/-- Source `UserPublicInfo.get(uuids)` (user.py lines 249-254): select the
users whose external uuid is among the requested ones; when their number
differs from the number of distinct requested uuids, abort with 404 and no
body; otherwise dump the public (uuid, username) pairs. -/
def userPublicInfoGet (store : List User) (uuids : List String) :
    Except Nat (List (String × String)) :=
  let users := store.filter (fun u => uuids.contains u.external_uuid)
  if !(users.length == uuids.dedup.length) then Except.error 404
  else Except.ok (users.map fun u => (u.external_uuid, u.username))

/-- A sequence of further revocation requests, applied to the ledger in
order (each entry is a jti together with the identity of the requesting
principal). -/
def revoke_many (ops : List (Nat × Nat)) (st : LedgerState) : LedgerState :=
  ops.foldl (fun s p => revoke_token p.1 p.2 s) st

/-- Marking records revoked never changes which record a jti lookup finds:
the marking map preserves the jti field, so the lookup predicate is
unchanged. -/
theorem find?_revoke_map (j : Nat) (t : Nat) (l : List TokenRecord) :
    (l.map fun r => if r.jti == j then { r with revoked := true } else r).find?
        (fun r => r.jti == t) =
      (l.find? (fun r => r.jti == t)).map
        (fun r => if r.jti == j then { r with revoked := true } else r) := by
  rw [List.find?_map]
  have hpred : ((fun r : TokenRecord => r.jti == t) ∘ fun r =>
      if r.jti == j then { r with revoked := true } else r) =
      (fun r : TokenRecord => r.jti == t) := by
    funext r
    by_cases hr : (r.jti == j) = true <;> simp [Function.comp, hr]
  rw [hpred]

/-- The ledger reports a token revoked once its own jti has been recorded. -/
theorem is_token_revoked_revoke_self (tok : TokenPayload) (uid : Nat)
    (st : LedgerState) :
    is_token_revoked tok (revoke_token tok.jti uid st) = true := by
  obtain ⟨l⟩ := st
  simp only [is_token_revoked, revoke_token, find?_revoke_map]
  cases hf : l.find? (fun r => r.jti == tok.jti) with
  | none => rfl
  | some r =>
    have hr : r.jti = tok.jti := by simpa using List.find?_some hf
    simp [hr]

/-- Recording a different jti leaves the revocation status of a token
unchanged. -/
theorem is_token_revoked_revoke_frame (tok : TokenPayload) (j uid : Nat)
    (st : LedgerState) (h : tok.jti ≠ j) :
    is_token_revoked tok (revoke_token j uid st) = is_token_revoked tok st := by
  obtain ⟨l⟩ := st
  simp only [is_token_revoked, revoke_token, find?_revoke_map]
  cases hf : l.find? (fun r => r.jti == tok.jti) with
  | none => rfl
  | some r =>
    have hr : r.jti = tok.jti := by simpa using List.find?_some hf
    have h1 : ¬(r.jti = j) := by rw [hr]; exact h
    have h2 : (r.jti == j) = false := beq_eq_false_iff_ne.mpr h1
    simp [h1, h2]

/-- Revocation is monotone: a token already reported revoked stays revoked
after any further single revocation. -/
theorem is_token_revoked_mono (tok : TokenPayload) (j uid : Nat)
    (st : LedgerState) (h : is_token_revoked tok st = true) :
    is_token_revoked tok (revoke_token j uid st) = true := by
  by_cases hj : tok.jti = j
  · subst hj; exact is_token_revoked_revoke_self tok uid st
  · rw [is_token_revoked_revoke_frame tok j uid st hj]; exact h

/-- Revocation is permanent under any further sequence of revocations. -/
theorem is_token_revoked_revoke_many (ops : List (Nat × Nat))
    (tok : TokenPayload) (st : LedgerState)
    (h : is_token_revoked tok st = true) :
    is_token_revoked tok (revoke_many ops st) = true := by
  induction ops generalizing st with
  | nil => exact h
  | cons p ps ih =>
    exact ih (revoke_token p.1 p.2 st) (is_token_revoked_mono tok p.1 p.2 st h)

/-- Recording the same jti twice leaves the ledger exactly as recording it
once. -/
theorem revoke_token_idem (jti uid uid2 : Nat) (st : LedgerState) :
    revoke_token jti uid (revoke_token jti uid2 st) = revoke_token jti uid2 st := by
  obtain ⟨l⟩ := st
  simp only [revoke_token, List.map_map, LedgerState.mk.injEq]
  apply List.map_congr_left
  intro r _
  by_cases h : r.jti == jti <;> simp [Function.comp, h]

/-- Validation of a token with a foreign jti is unaffected by a revocation
of some other jti. -/
theorem validate_revoke_frame (tok : TokenPayload) (j uid now : Nat)
    (st : LedgerState) (h : tok.jti ≠ j) :
    validate tok now (revoke_token j uid st) = validate tok now st := by
  simp only [validate, check_if_token_revoked,
    is_token_revoked_revoke_frame tok j uid st h]

/-- C1.  After the RevocationLedger records the jti of an issued token as
revoked, validating that same token fails with Revoked, deterministically
and permanently — even after any further sequence of revocation requests —
and recording the same jti a second time is not an error but a no-op that
leaves the ledger unchanged. -/
theorem claim_C1 (tok : TokenPayload) (uid now : Nat) (st : LedgerState)
    (ops : List (Nat × Nat)) (h : now < tok.exp) :
    validate tok now (revoke_many ops (revoke_token tok.jti uid st)) =
      Except.error ValidateError.revoked
    ∧ revoke_token tok.jti uid (revoke_token tok.jti uid st) =
      revoke_token tok.jti uid st := by
  constructor
  · have hrev : is_token_revoked tok (revoke_many ops (revoke_token tok.jti uid st)) = true :=
      is_token_revoked_revoke_many ops tok _ (is_token_revoked_revoke_self tok uid st)
    have hexp : ¬(tok.exp ≤ now) := by omega
    simp [validate, check_if_token_revoked, hrev, hexp]
  · exact revoke_token_idem tok.jti uid uid st

/-- Concrete refresh token used by witnesses. -/
def exTok : TokenPayload :=
  { identity := 1, user_claims := none, jti := 5, iat := 0, exp := 50,
    kind := TokenKind.refresh }

/-- Concrete ledger holding the issuance record of `exTok`. -/
def exLedger : LedgerState :=
  { records :=
      [{ jti := 5, kind := TokenKind.refresh, user_id := 1, expires := 50, revoked := false }] }

/-- Witness for C1 at a concrete token, ledger and revocation sequence. -/
theorem claim_C1_witness :
    (7 : Nat) < exTok.exp
    ∧ (validate exTok 7
        (revoke_many [(9, 1), (5, 1)] (revoke_token exTok.jti 1 exLedger)) =
        Except.error ValidateError.revoked
      ∧ revoke_token exTok.jti 1 (revoke_token exTok.jti 1 exLedger) =
        revoke_token exTok.jti 1 exLedger) :=
  ⟨by decide, claim_C1 exTok 1 7 exLedger [(9, 1), (5, 1)] (by decide)⟩

/-- C5.  The expiry policy returns one of exactly the two configured TTL
pairs: the Tech role receives the tech pair for both the access and the
refresh TTL, and every other role — unknown and future roles included —
receives the user pair rather than erroring. -/
theorem claim_C5 (cfg : Config) (user : User) :
    ((get_access_token_expire_delta cfg user, get_refresh_expire_delta cfg user) =
        (cfg.techAccessExpire, cfg.techRefreshExpire)
      ∨ (get_access_token_expire_delta cfg user, get_refresh_expire_delta cfg user) =
        (cfg.userAccessExpire, cfg.userRefreshExpire))
    ∧ (user.role = RolesTech →
        (get_access_token_expire_delta cfg user, get_refresh_expire_delta cfg user) =
          (cfg.techAccessExpire, cfg.techRefreshExpire))
    ∧ (user.role ≠ RolesTech →
        (get_access_token_expire_delta cfg user, get_refresh_expire_delta cfg user) =
          (cfg.userAccessExpire, cfg.userRefreshExpire)) := by
  by_cases h : user.role = RolesTech
  · refine ⟨Or.inl ?_, fun _ => ?_, fun hc => absurd h hc⟩ <;>
      simp [get_access_token_expire_delta, get_refresh_expire_delta, h]
  · refine ⟨Or.inr ?_, fun hc => absurd hc h, fun _ => ?_⟩ <;>
      simp [get_access_token_expire_delta, get_refresh_expire_delta, h]

/-- Concrete TTL configuration used by witnesses. -/
def exCfg : Config :=
  { techAccessExpire := 300, userAccessExpire := 60,
    techRefreshExpire := 3000, userRefreshExpire := 600 }

/-- Concrete user carrying an unknown future role, used by the C5 witness. -/
def exAuditor : User :=
  { id := 2, username := "bob", password := "pw", email := "bob",
    external_uuid := "u2", role := "auditor", resources := [] }

/-- Witness for C5 at a user carrying an unknown future role. -/
theorem claim_C5_witness :
    exAuditor.role ≠ RolesTech
    ∧ (get_access_token_expire_delta exCfg exAuditor,
        get_refresh_expire_delta exCfg exAuditor) =
      (exCfg.userAccessExpire, exCfg.userRefreshExpire) :=
  ⟨by simp [exAuditor, RolesTech], (claim_C5 exCfg exAuditor).2.2 (by simp [exAuditor, RolesTech])⟩

/-- Characterization of a successful local login: the tokens returned are
exactly the ones built from the authenticated user, with consecutive fresh
jti values, and the returned ledger state holds both issuance records. -/
theorem login_success_inv (cfg : Config) (store : List User) (req : LoginRequest)
    (now j : Nat) (st : LedgerState) (a r : TokenPayload) (st' : LedgerState)
    (hs : login cfg store req now j st = ((JsonBody.tokens a r, 200), st')) :
    ∃ user, login_internal_user store (req.username.getD "") (req.password.getD "") = some user
      ∧ a = create_access_token user.id (get_user_claims user)
          (get_access_token_expire_delta cfg user) now j
      ∧ r = create_refresh_token user.id (get_refresh_expire_delta cfg user) now (j + 1)
      ∧ st' = add_token_to_database r (add_token_to_database a st) := by
  unfold login at hs
  split at hs
  · simp at hs
  · split at hs
    · simp at hs
    · split at hs
      · simp at hs
      · rename_i user heq
        simp only [Prod.mk.injEq, JsonBody.tokens.injEq] at hs
        obtain ⟨⟨⟨ha, hr⟩, -⟩, hst⟩ := hs
        refine ⟨user, heq, ha.symm, hr.symm, ?_⟩
        rw [← hst, ← ha, ← hr]

/-- The access-revocation handler either rejects the presented token and
leaves the ledger unchanged, or records exactly the jti of the presented
token. -/
theorem revoke_access_token_snd (tok : TokenPayload) (now : Nat) (st : LedgerState) :
    (revoke_access_token tok now st).2 = st
    ∨ (revoke_access_token tok now st).2 = revoke_token tok.jti tok.identity st := by
  unfold revoke_access_token
  split
  · exact Or.inl rfl
  · split
    · exact Or.inl rfl
    · exact Or.inl rfl
    · exact Or.inl rfl
    · exact Or.inr rfl

/-- The refresh-revocation handler either rejects the presented token and
leaves the ledger unchanged, or records exactly the jti of the presented
token. -/
theorem revoke_refresh_token_snd (tok : TokenPayload) (now : Nat) (st : LedgerState) :
    (revoke_refresh_token tok now st).2 = st
    ∨ (revoke_refresh_token tok now st).2 = revoke_token tok.jti tok.identity st := by
  unfold revoke_refresh_token
  split
  · exact Or.inl rfl
  · split
    · exact Or.inl rfl
    · exact Or.inl rfl
    · exact Or.inl rfl
    · exact Or.inr rfl

/-- C2.  Each revoke handler records only the jti of the token presented to
it: after a successful login, running the access-revocation handler on the
access token leaves validation of the sibling refresh token unchanged, and
running the refresh-revocation handler on the refresh token leaves
validation of the sibling access token unchanged. -/
theorem claim_C2 (cfg : Config) (store : List User) (req : LoginRequest)
    (now j now2 : Nat) (st : LedgerState) (a r : TokenPayload) (st' : LedgerState)
    (hs : login cfg store req now j st = ((JsonBody.tokens a r, 200), st')) :
    validate r now2 (revoke_access_token a now2 st').2 = validate r now2 st'
    ∧ validate a now2 (revoke_refresh_token r now2 st').2 = validate a now2 st' := by
  obtain ⟨user, -, ha, hr, -⟩ := login_success_inv cfg store req now j st a r st' hs
  have haj : a.jti = j := by rw [ha]; rfl
  have hrj : r.jti = j + 1 := by rw [hr]; rfl
  constructor
  · rcases revoke_access_token_snd a now2 st' with h | h
    · rw [h]
    · rw [h]
      exact validate_revoke_frame r a.jti a.identity now2 st' (by omega)
  · rcases revoke_refresh_token_snd r now2 st' with h | h
    · rw [h]
    · rw [h]
      exact validate_revoke_frame a r.jti r.identity now2 st' (by omega)

/-- The ledger holds an issuance record for a token: a record with the
token's jti and owning identity, not yet revoked. -/
def hasIssuedRecord (st : LedgerState) (tok : TokenPayload) : Bool :=
  st.records.any fun rec =>
    rec.jti == tok.jti && rec.user_id == tok.identity && rec.revoked == false

/-- Writing the issuance record of a token makes its record present. -/
theorem hasIssuedRecord_add_self (tok : TokenPayload) (st : LedgerState) :
    hasIssuedRecord (add_token_to_database tok st) tok = true := by
  simp [hasIssuedRecord, add_token_to_database]

/-- Writing a further issuance record preserves presence of earlier ones. -/
theorem hasIssuedRecord_add_mono (tok other : TokenPayload) (st : LedgerState)
    (h : hasIssuedRecord st tok = true) :
    hasIssuedRecord (add_token_to_database other st) tok = true := by
  simp only [hasIssuedRecord, add_token_to_database, List.any_append] at h ⊢
  rw [h, Bool.true_or]

/-- C3.  On every successful local login, the ledger state in force when the
tokens are handed back already holds the issuance TokenRecord of both the
access and the refresh token: a returned token without a ledger record is
unreachable. -/
theorem claim_C3 (cfg : Config) (store : List User) (req : LoginRequest)
    (now j : Nat) (st : LedgerState) (a r : TokenPayload) (st' : LedgerState)
    (hs : login cfg store req now j st = ((JsonBody.tokens a r, 200), st')) :
    hasIssuedRecord st' a = true ∧ hasIssuedRecord st' r = true := by
  obtain ⟨user, -, -, -, hst⟩ := login_success_inv cfg store req now j st a r st' hs
  subst hst
  exact ⟨hasIssuedRecord_add_mono a r _ (hasIssuedRecord_add_self a st),
    hasIssuedRecord_add_self r _⟩

/-- Concrete user with correct credentials, used by login witnesses. -/
def exAlice : User :=
  { id := 1, username := "alice", password := "pw1", email := "alice",
    external_uuid := "uuid-alice", role := "user", resources := ["diary"] }

/-- Concrete one-user identity store. -/
def exStore : List User := [exAlice]

/-- Concrete well-formed login request with correct credentials. -/
def exReq : LoginRequest :=
  { is_json := true, username := some "alice", password := some "pw1" }

/-- The empty ledger. -/
def ledger0 : LedgerState := { records := [] }

/-- The access token the example login issues. -/
def exAccess : TokenPayload := create_access_token 1 (get_user_claims exAlice) 60 100 7

/-- The refresh token the example login issues. -/
def exRefresh : TokenPayload := create_refresh_token 1 600 100 8

/-- The ledger after the example login. -/
def exStAfter : LedgerState :=
  add_token_to_database exRefresh (add_token_to_database exAccess ledger0)

/-- Witness for C2 at the concrete example login. -/
theorem claim_C2_witness :
    login exCfg exStore exReq 100 7 ledger0 = ((JsonBody.tokens exAccess exRefresh, 200), exStAfter)
    ∧ (validate exRefresh 120 (revoke_access_token exAccess 120 exStAfter).2 =
        validate exRefresh 120 exStAfter
      ∧ validate exAccess 120 (revoke_refresh_token exRefresh 120 exStAfter).2 =
        validate exAccess 120 exStAfter) :=
  ⟨by rfl, claim_C2 exCfg exStore exReq 100 7 120 ledger0 exAccess exRefresh exStAfter (by rfl)⟩

/-- The access token the second example login issues. -/
def exAccess2 : TokenPayload := create_access_token 1 (get_user_claims exAlice) 60 200 3

/-- The refresh token the second example login issues. -/
def exRefresh2 : TokenPayload := create_refresh_token 1 600 200 4

/-- The ledger after the second example login. -/
def exStAfter2 : LedgerState :=
  add_token_to_database exRefresh2 (add_token_to_database exAccess2 ledger0)

/-- Witness for C3 at a concrete example login. -/
theorem claim_C3_witness :
    login exCfg exStore exReq 200 3 ledger0 = ((JsonBody.tokens exAccess2 exRefresh2, 200), exStAfter2)
    ∧ (hasIssuedRecord exStAfter2 exAccess2 = true
      ∧ hasIssuedRecord exStAfter2 exRefresh2 = true) :=
  ⟨by rfl, claim_C3 exCfg exStore exReq 200 3 ledger0 exAccess2 exRefresh2 exStAfter2 (by rfl)⟩

/-- C4.  For every valid, non-revoked refresh token whose principal exists in
the current store, the refresh handler issues exactly one new access token
whose embedded claims are `get_user_claims` of the principal row as currently
stored — so they reflect the current role even when the role changed after
the refresh token was issued — and writes its issuance record. -/
theorem claim_C4 (cfg : Config) (store : List User) (tok : TokenPayload)
    (now j : Nat) (st : LedgerState) (user : User)
    (hkind : tok.kind = TokenKind.refresh)
    (hexp : now < tok.exp)
    (hrev : check_if_token_revoked tok st = false)
    (huser : store.find? (fun u => u.id == tok.identity) = some user) :
    refresh cfg store tok now j st =
      ((JsonBody.accessOnly (create_access_token tok.identity (get_user_claims user)
          (get_access_token_expire_delta cfg user) now j), 200),
        add_token_to_database (create_access_token tok.identity (get_user_claims user)
          (get_access_token_expire_delta cfg user) now j) st) := by
  have hle : ¬tok.exp ≤ now := by omega
  have h2 : validate tok now st = Except.ok (tok.identity, tok.user_claims) := by
    simp [validate, hle, hrev]
  simp [refresh, hkind, h2, huser]

/-- Concrete store where the example user has been promoted to the Tech role
after the refresh token was issued. -/
def exAliceTech : User := { exAlice with role := RolesTech }

/-- The promoted one-user identity store. -/
def exStoreTech : List User := [exAliceTech]

/-- Witness for C4: refreshing with the old refresh token after the role
change yields an access token carrying the current Tech-role claims. -/
theorem claim_C4_witness :
    exRefresh.kind = TokenKind.refresh
    ∧ (300 : Nat) < exRefresh.exp
    ∧ check_if_token_revoked exRefresh exStAfter = false
    ∧ exStoreTech.find? (fun u => u.id == exRefresh.identity) = some exAliceTech
    ∧ refresh exCfg exStoreTech exRefresh 300 9 exStAfter =
      ((JsonBody.accessOnly (create_access_token exRefresh.identity (get_user_claims exAliceTech)
          (get_access_token_expire_delta exCfg exAliceTech) 300 9), 200),
        add_token_to_database (create_access_token exRefresh.identity (get_user_claims exAliceTech)
          (get_access_token_expire_delta exCfg exAliceTech) 300 9) exStAfter) :=
  ⟨rfl, by decide, rfl, rfl,
    claim_C4 exCfg exStoreTech exRefresh 300 9 exStAfter exAliceTech rfl (by decide) rfl rfl⟩

/-- Counterexample for C6: at a concrete successful login the issued refresh
token carries no user claims dictionary at all, while the sibling access
token embeds role, uuid and resources — the two kinds do not share the
claimed payload shape. -/
theorem claim_C6_counterexample :
    login exCfg exStore exReq 100 7 ledger0 = ((JsonBody.tokens exAccess exRefresh, 200), exStAfter)
    ∧ exRefresh.user_claims = none
    ∧ exAccess.user_claims = some (get_user_claims exAlice)
    ∧ exRefresh.user_claims ≠ exAccess.user_claims :=
  ⟨rfl, rfl, rfl, by simp [exAccess, exRefresh, create_access_token, create_refresh_token]⟩

/-- C6 (amended).  Every successful local login issues an access token whose
payload carries sub, the user claims dictionary (role, uuid, resources), a
fresh jti, iat, exp and the access kind marker, and a refresh token whose
payload carries sub, a distinct fresh jti, iat, exp and the refresh kind
marker but no user claims dictionary: the two kinds differ by TTL, by kind
marker and by the presence of the embedded claims. -/
theorem claim_C6 (cfg : Config) (store : List User) (req : LoginRequest)
    (now j : Nat) (st : LedgerState) (a r : TokenPayload) (st' : LedgerState)
    (hs : login cfg store req now j st = ((JsonBody.tokens a r, 200), st')) :
    ∃ user, login_internal_user store (req.username.getD "") (req.password.getD "") = some user
      ∧ a.identity = user.id ∧ r.identity = user.id
      ∧ a.iat = now ∧ r.iat = now
      ∧ a.exp = now + get_access_token_expire_delta cfg user
      ∧ r.exp = now + get_refresh_expire_delta cfg user
      ∧ a.jti = j ∧ r.jti = j + 1
      ∧ a.kind = TokenKind.access ∧ r.kind = TokenKind.refresh
      ∧ a.user_claims = some (get_user_claims user)
      ∧ r.user_claims = none := by
  obtain ⟨user, heq, ha, hr, -⟩ := login_success_inv cfg store req now j st a r st' hs
  subst ha
  subst hr
  exact ⟨user, heq, rfl, rfl, rfl, rfl, rfl, rfl, rfl, rfl, rfl, rfl, rfl, rfl⟩

/-- The access token a third example login issues. -/
def exAccess6 : TokenPayload := create_access_token 1 (get_user_claims exAlice) 60 400 11

/-- The refresh token the third example login issues. -/
def exRefresh6 : TokenPayload := create_refresh_token 1 600 400 12

/-- The ledger after the third example login. -/
def exStAfter6 : LedgerState :=
  add_token_to_database exRefresh6 (add_token_to_database exAccess6 ledger0)

/-- Witness for the amended C6 at a concrete example login. -/
theorem claim_C6_witness :
    login exCfg exStore exReq 400 11 ledger0 = ((JsonBody.tokens exAccess6 exRefresh6, 200), exStAfter6)
    ∧ ∃ user, login_internal_user exStore (exReq.username.getD "") (exReq.password.getD "") = some user
      ∧ exAccess6.identity = user.id ∧ exRefresh6.identity = user.id
      ∧ exAccess6.iat = 400 ∧ exRefresh6.iat = 400
      ∧ exAccess6.exp = 400 + get_access_token_expire_delta exCfg user
      ∧ exRefresh6.exp = 400 + get_refresh_expire_delta exCfg user
      ∧ exAccess6.jti = 11 ∧ exRefresh6.jti = 11 + 1
      ∧ exAccess6.kind = TokenKind.access ∧ exRefresh6.kind = TokenKind.refresh
      ∧ exAccess6.user_claims = some (get_user_claims user)
      ∧ exRefresh6.user_claims = none :=
  ⟨by rfl, claim_C6 exCfg exStore exReq 400 11 ledger0 exAccess6 exRefresh6 exStAfter6 (by rfl)⟩

/-- C7.  A login attempt with a username absent from the store and a login
attempt with a present username but wrong password produce identical
responses — the same Bad credentials body, the same 400 status, the same
untouched ledger — so the caller cannot learn whether the username exists. -/
theorem claim_C7 (cfg : Config) (store : List User) (now j : Nat) (st : LedgerState)
    (u1 p1 u2 p2 : String)
    (hmiss : ∀ u ∈ store, u.username ≠ u1)
    (hpresent : ∃ u ∈ store, u.username = u2)
    (hwrong : ∀ u ∈ store, u.username = u2 → u.password ≠ p2)
    (h1 : u1 ≠ "") (hp1 : p1 ≠ "") (h2 : u2 ≠ "") (hp2 : p2 ≠ "") :
    login cfg store { is_json := true, username := some u1, password := some p1 } now j st =
      ((JsonBody.msg "Bad credentials", 400), st)
    ∧ login cfg store { is_json := true, username := some u2, password := some p2 } now j st =
      ((JsonBody.msg "Bad credentials", 400), st) := by
  have l1 : login_internal_user store u1 p1 = none := by
    unfold login_internal_user
    have hf : store.find? (fun u => u.username == u1) = none := by
      rw [List.find?_eq_none]
      intro u hu
      simpa using hmiss u hu
    rw [hf]
  have l2 : login_internal_user store u2 p2 = none := by
    unfold login_internal_user
    cases hf : store.find? (fun u => u.username == u2) with
    | none => rfl
    | some u =>
      have hm : u ∈ store := List.mem_of_find?_eq_some hf
      have hn : u.username = u2 := by simpa using List.find?_some hf
      have hpw : (u.password == p2) = false :=
        beq_eq_false_iff_ne.mpr (hwrong u hm hn)
      simp [hpw]
  have hb1 : (u1 == "") = false := beq_eq_false_iff_ne.mpr h1
  have hb2 : (p1 == "") = false := beq_eq_false_iff_ne.mpr hp1
  have hb3 : (u2 == "") = false := beq_eq_false_iff_ne.mpr h2
  have hb4 : (p2 == "") = false := beq_eq_false_iff_ne.mpr hp2
  constructor
  · simp [login, falsyStr, hb1, hb2, l1]
  · simp [login, falsyStr, hb3, hb4, l2]

/-- Witness for C7: the store holds only alice, and the attempts use an
unknown username and a wrong password for alice. -/
theorem claim_C7_witness :
    (∀ u ∈ exStore, u.username ≠ "zeta")
    ∧ (∃ u ∈ exStore, u.username = "alice")
    ∧ (∀ u ∈ exStore, u.username = "alice" → u.password ≠ "wrong")
    ∧ (login exCfg exStore { is_json := true, username := some "zeta", password := some "x" } 0 0 ledger0 =
        ((JsonBody.msg "Bad credentials", 400), ledger0)
      ∧ login exCfg exStore { is_json := true, username := some "alice", password := some "wrong" } 0 0 ledger0 =
        ((JsonBody.msg "Bad credentials", 400), ledger0)) :=
  ⟨by decide, by decide, by decide,
    claim_C7 exCfg exStore 0 0 ledger0 "zeta" "x" "alice" "wrong"
      (by decide) (by decide) (by decide)
      (by decide) (by decide) (by decide) (by decide)⟩

/-- The declared outcomes of the local login operation: the three tagged
failure responses or a success carrying both tokens. -/
def isDeclaredLoginResponse (resp : Response) : Prop :=
  resp = (JsonBody.msg "Missing JSON in request", 400)
  ∨ resp = (JsonBody.msg "Missing username or password", 400)
  ∨ resp = (JsonBody.msg "Bad credentials", 400)
  ∨ ∃ a r, resp = (JsonBody.tokens a r, 200)

/-- The declared outcomes of the refresh operation: a tagged 401 failure of
the validation taxonomy or a success carrying the new access token. -/
def isDeclaredRefreshResponse (resp : Response) : Prop :=
  resp = (JsonBody.msg "Only refresh tokens are allowed", 401)
  ∨ resp = (JsonBody.msg "Token has expired", 401)
  ∨ resp = (JsonBody.msg "Token has been revoked", 401)
  ∨ resp = (JsonBody.msg "Invalid token", 401)
  ∨ resp = (JsonBody.msg "Error loading the user", 401)
  ∨ ∃ a, resp = (JsonBody.accessOnly a, 200)

/-- The declared outcomes of the access-revocation operation. -/
def isDeclaredRevokeAccessResponse (resp : Response) : Prop :=
  resp = (JsonBody.msg "Only access tokens are allowed", 401)
  ∨ resp = (JsonBody.msg "Token has expired", 401)
  ∨ resp = (JsonBody.msg "Token has been revoked", 401)
  ∨ resp = (JsonBody.msg "Invalid token", 401)
  ∨ resp = (JsonBody.message "token revoked", 200)

/-- The declared outcomes of the refresh-revocation operation. -/
def isDeclaredRevokeRefreshResponse (resp : Response) : Prop :=
  resp = (JsonBody.msg "Only refresh tokens are allowed", 401)
  ∨ resp = (JsonBody.msg "Token has expired", 401)
  ∨ resp = (JsonBody.msg "Token has been revoked", 401)
  ∨ resp = (JsonBody.msg "Invalid token", 401)
  ∨ resp = (JsonBody.message "token revoked", 200)

/-- The declared outcomes of the federated login endpoint: the 400 responses,
a 500 carrying the reason of a non-missing-code failure, or success with both
tokens. -/
def isDeclaredGoogleResponse (resp : Response) : Prop :=
  resp = (JsonBody.msg "Missing JSON in request", 400)
  ∨ resp = (JsonBody.err "Missing authorization code", 400)
  ∨ (∃ d, resp = (JsonBody.err d, 500))
  ∨ ∃ a r, resp = (JsonBody.tokens a r, 200)

/-- C8.  Every outcome of the core operations is a returned value from the
declared taxonomy: for every input, each embedded operation is a total
function whose response is either a success or one of the enumerated tagged
failures — no fault escapes the boundary. -/
theorem claim_C8 (cfg : Config) (env : ProviderEnv) (store : List User)
    (req : LoginRequest) (tok : TokenPayload) (greq : GoogleRequest)
    (now j freshId : Nat) (freshUuid : String) (st : LedgerState) :
    isDeclaredLoginResponse (login cfg store req now j st).1
    ∧ isDeclaredRefreshResponse (refresh cfg store tok now j st).1
    ∧ isDeclaredRevokeAccessResponse (revoke_access_token tok now st).1
    ∧ isDeclaredRevokeRefreshResponse (revoke_refresh_token tok now st).1
    ∧ isDeclaredGoogleResponse (login_google cfg env store greq now j freshId freshUuid st).1 := by
  refine ⟨?_, ?_, ?_, ?_, ?_⟩
  · unfold login isDeclaredLoginResponse
    split
    · tauto
    · split
      · tauto
      · split
        · tauto
        · exact Or.inr (Or.inr (Or.inr ⟨_, _, rfl⟩))
  · unfold refresh isDeclaredRefreshResponse
    split
    · tauto
    · split
      · tauto
      · tauto
      · tauto
      · split
        · tauto
        · exact Or.inr (Or.inr (Or.inr (Or.inr (Or.inr ⟨_, rfl⟩))))
  · unfold revoke_access_token isDeclaredRevokeAccessResponse
    split
    · tauto
    · split <;> tauto
  · unfold revoke_refresh_token isDeclaredRevokeRefreshResponse
    split
    · tauto
    · split <;> tauto
  · unfold login_google isDeclaredGoogleResponse
    split
    · tauto
    · split
      · tauto
      · exact Or.inr (Or.inr (Or.inl ⟨_, rfl⟩))
      · exact Or.inr (Or.inr (Or.inr ⟨_, _, rfl⟩))

/-- C9.  A federated login request carrying JSON but no authorization code
terminates with the Missing authorization code failure mapped to status 400,
with the user store and the token ledger both unchanged (zero TokenRecords
written); and every other declared story failure kind is mapped by the
endpoint to status 500 with its reason. -/
theorem claim_C9 (cfg : Config) (env : ProviderEnv) (store : List User)
    (now j freshId : Nat) (freshUuid : String) (st : LedgerState)
    (greq greq2 : GoogleRequest)
    (hjson : greq.is_json = true) (hnone : greq.code = none)
    (hjson2 : greq2.is_json = true) :
    login_google cfg env store greq now j freshId freshUuid st =
      ((JsonBody.err "Missing authorization code", 400), store, st)
    ∧ ∀ kind detail store1 st1,
        googleLoginStory cfg env store greq2.code now j freshId freshUuid st =
          (ExchangeResult.failure kind detail, store1, st1) →
        kind ≠ FederatedFailure.missingAuthorizationCode →
        (login_google cfg env store greq2 now j freshId freshUuid st).1 =
          (JsonBody.err detail, 500) := by
  constructor
  · simp [login_google, googleLoginStory, hjson, hnone]
  · intro kind detail store1 st1 hstory hkind
    cases kind with
    | missingAuthorizationCode => exact absurd rfl hkind
    | providerExchangeFailed => simp [login_google, hjson2, hstory]
    | providerProfileInvalid => simp [login_google, hjson2, hstory]

/-- Concrete provider environment whose token endpoint rejects every code. -/
def exEnvFail : ProviderEnv :=
  { exchangeCode := fun _ => Except.error "provider refused",
    fetchProfile := fun _ => Except.error "unused" }

/-- Concrete JSON request with no authorization code. -/
def exGReqNoCode : GoogleRequest := { is_json := true, code := none }

/-- Concrete JSON request carrying an authorization code. -/
def exGReqCode : GoogleRequest := { is_json := true, code := some "abc" }

/-- Witness for C9 at the concrete requests and failing provider. -/
theorem claim_C9_witness :
    exGReqNoCode.is_json = true ∧ exGReqNoCode.code = none ∧ exGReqCode.is_json = true
    ∧ (login_google exCfg exEnvFail exStore exGReqNoCode 0 0 5 "fresh-uuid" ledger0 =
        ((JsonBody.err "Missing authorization code", 400), exStore, ledger0)
      ∧ ∀ kind detail store1 st1,
          googleLoginStory exCfg exEnvFail exStore exGReqCode.code 0 0 5 "fresh-uuid" ledger0 =
            (ExchangeResult.failure kind detail, store1, st1) →
          kind ≠ FederatedFailure.missingAuthorizationCode →
          (login_google exCfg exEnvFail exStore exGReqCode 0 0 5 "fresh-uuid" ledger0).1 =
            (JsonBody.err detail, 500)) :=
  ⟨rfl, rfl, rfl,
    claim_C9 exCfg exEnvFail exStore 0 0 5 "fresh-uuid" ledger0 exGReqNoCode exGReqCode
      rfl rfl rfl⟩

/-- Counting argument behind the public-info query: when stored external
uuids are pairwise distinct, the number of users matching the requested
uuids equals the number of distinct requested uuids that match some user. -/
theorem userPublicInfo_count (store : List User) (uuids : List String)
    (hnd : (store.map User.external_uuid).Nodup) :
    (store.filter (fun u => uuids.contains u.external_uuid)).length =
      (uuids.dedup.filter (fun x => (store.map User.external_uuid).contains x)).length := by
  have hlen : ((store.map User.external_uuid).filter (fun x => uuids.contains x)).length =
      (store.filter (fun u => uuids.contains u.external_uuid)).length := by
    rw [List.filter_map, List.length_map]
    rfl
  rw [← hlen]
  have hA : ((store.map User.external_uuid).filter (fun x => uuids.contains x)).Nodup :=
    hnd.filter _
  have hB : (uuids.dedup.filter (fun x => (store.map User.external_uuid).contains x)).Nodup :=
    uuids.nodup_dedup.filter _
  have hperm : List.Perm ((store.map User.external_uuid).filter (fun x => uuids.contains x))
      (uuids.dedup.filter (fun x => (store.map User.external_uuid).contains x)) := by
    rw [List.perm_ext_iff_of_nodup hA hB]
    intro x
    simp only [List.mem_filter, List.mem_dedup, List.elem_iff]
    exact and_comm
  exact hperm.length_eq

/-- C10.  Assuming stored external uuids are pairwise distinct, the
public-info query succeeds if and only if every requested uuid — duplicates
deduplicated by the count comparison — matches an existing user; whenever
some requested uuid is unmatched the whole request fails with 404 and
returns no partial result. -/
theorem claim_C10 (store : List User) (uuids : List String)
    (hnd : (store.map User.external_uuid).Nodup) :
    ((∃ res, userPublicInfoGet store uuids = Except.ok res) ↔
      ∀ id ∈ uuids, ∃ u ∈ store, u.external_uuid = id)
    ∧ (¬(∀ id ∈ uuids, ∃ u ∈ store, u.external_uuid = id) →
      userPublicInfoGet store uuids = Except.error 404) := by
  have hcount := userPublicInfo_count store uuids hnd
  have hmatched : (∀ x ∈ uuids.dedup, (store.map User.external_uuid).contains x) ↔
      (∀ id ∈ uuids, ∃ u ∈ store, u.external_uuid = id) := by
    constructor
    · intro h id hid
      have hx := h id (List.mem_dedup.mpr hid)
      rw [List.elem_iff] at hx
      obtain ⟨u, hu, heq⟩ := List.mem_map.mp hx
      exact ⟨u, hu, heq⟩
    · intro h x hx
      rw [List.elem_iff]
      obtain ⟨u, hu, heq⟩ := h x (List.mem_dedup.mp hx)
      exact List.mem_map.mpr ⟨u, hu, heq⟩
  by_cases hc : (store.filter (fun u => uuids.contains u.external_uuid)).length =
      uuids.dedup.length
  · have hok : userPublicInfoGet store uuids =
        Except.ok ((store.filter (fun u => uuids.contains u.external_uuid)).map
          fun u => (u.external_uuid, u.username)) := by
      unfold userPublicInfoGet
      have hc2 : (store.filter (fun u => decide (u.external_uuid ∈ uuids))).length =
          uuids.dedup.length := by simpa using hc
      simp [hc2]
    have hall : ∀ id ∈ uuids, ∃ u ∈ store, u.external_uuid = id := by
      apply hmatched.mp
      apply List.filter_length_eq_length.mp
      rw [← hcount]
      exact hc
    exact ⟨⟨fun _ => hall, fun _ => ⟨_, hok⟩⟩, fun hno => absurd hall hno⟩
  · have herr : userPublicInfoGet store uuids = Except.error 404 := by
      unfold userPublicInfoGet
      have hc2 : ¬(store.filter (fun u => decide (u.external_uuid ∈ uuids))).length =
          uuids.dedup.length := by simpa using hc
      simp [hc2]
    have hnall : ¬(∀ id ∈ uuids, ∃ u ∈ store, u.external_uuid = id) := by
      intro hall
      apply hc
      rw [hcount]
      exact List.filter_length_eq_length.mpr (hmatched.mpr hall)
    refine ⟨⟨?_, fun h => absurd h hnall⟩, fun _ => herr⟩
    rintro ⟨res, hres⟩
    rw [herr] at hres
    exact absurd hres (by simp)

/-- Witness for C10: a two-user store with distinct uuids, one request with
duplicates that fully matches, and the success outcome it implies. -/
theorem claim_C10_witness :
    (([exAlice, exAuditor].map User.external_uuid).Nodup)
    ∧ ((∃ res, userPublicInfoGet [exAlice, exAuditor] ["u2", "uuid-alice", "u2"] = Except.ok res) ↔
      ∀ id ∈ ["u2", "uuid-alice", "u2"], ∃ u ∈ [exAlice, exAuditor], u.external_uuid = id)
    ∧ (¬(∀ id ∈ ["u2", "uuid-alice", "u2"], ∃ u ∈ [exAlice, exAuditor], u.external_uuid = id) →
      userPublicInfoGet [exAlice, exAuditor] ["u2", "uuid-alice", "u2"] = Except.error 404) :=
  ⟨by decide,
    (claim_C10 [exAlice, exAuditor] ["u2", "uuid-alice", "u2"] (by decide)).1,
    (claim_C10 [exAlice, exAuditor] ["u2", "uuid-alice", "u2"] (by decide)).2⟩

end LittleDiary
